import Mathlib

/-!
Verification of the customer-health analyzer (gtm-agent-user-health-analyzer).

This file shallowly embeds the scoring, recommendation, schema-discovery and
source-selection logic of the repository:

* `src/src/orchestrator.py` — `_create_single_customer_score`,
  `_calculate_usage_score_from_dict`, `_calculate_relationship_score_from_dict`,
  `_calculate_support_score_from_dict`, `_generate_recommendations`,
  `set_data_source`, `_collect_airtable_data`;
* `src/src/agents/health_analysis_agents.py` — `HealthScoringTool._run`;
* `src/src/agents/data_integration_agents.py` — `AirtableTool._discover_schema`,
  `_find_field_by_patterns`, `_score_table_for_customers`, `_discover_best_table`,
  `_extract_field_value`.

Embedding conventions:
* The overall-score expression `int(u*0.4 + r*0.3 + s*0.3)` is embedded with
  IEEE-754 binary64 semantics (`fl54`): every value in it is a dyadic rational
  with denominator `2^54`, so each float operation is an exact scaled-integer
  operation followed by round-to-nearest-even, and `int()` truncates toward zero.
* The remaining `float` arithmetic (the orchestrator's dict-based component
  calculators) is embedded as exact rational arithmetic over `ℚ`, with `int(x)`
  as `py_int` (truncation toward zero); every concrete value proved about these
  agrees with the binary64 evaluation at that input.
* Python dict `.get(k, d)` on optionally-present fields is embedded as
  `Option.getD`; a `dict` block that may be missing or empty (`{}` is falsy)
  is embedded as `Option` of a structure.
* Python string lowering and the substring operator `in` are embedded as
  `low_str` and `py_in` (executable, unlike `String.toLower` in kernel terms).
* A Python `set` of column names is embedded as the list of its (unspecified)
  iteration order; all quantifications over column-name lists therefore range
  over every possible iteration order of the set.
-/

/-- Truncation toward zero, the semantics of Python `int()` on a number. -/
def py_int (q : ℚ) : ℤ := if 0 ≤ q then ⌊q⌋ else ⌈q⌉

/-- Rounding to the nearest integer with ties to even, the semantics of Python
`round()`; used only to state the spec's `round(0.4·u + 0.3·r + 0.3·s)` claim. -/
def py_round (q : ℚ) : ℤ :=
  if q - ⌊q⌋ < 1/2 then ⌊q⌋
  else if 1/2 < q - ⌊q⌋ then ⌊q⌋ + 1
  else if ⌊q⌋ % 2 = 0 then ⌊q⌋ else ⌊q⌋ + 1

/-- Health status classification, from `models/customer_health.py` (`HealthStatus`). -/
inductive HealthStatus where
  | healthy
  | at_risk
  | critical
deriving DecidableEq, Repr

/-- Recommendation priority, from `models/customer_health.py` (`RecommendationPriority`). -/
inductive RecommendationPriority where
  | low
  | medium
  | high
  | critical
deriving DecidableEq, Repr

/-- Round an integer `N` to the nearest multiple of `step`, ties to the even
multiple — the significand rounding of IEEE-754 round-to-nearest-even, stated on
numerators at a fixed power-of-two scale. -/
def rnd_step (N step : ℤ) : ℤ :=
  if 2 * (N % step) < step then step * (N / step)
  else if step < 2 * (N % step) then step * (N / step + 1)
  else if (N / step) % 2 = 0 then step * (N / step) else step * (N / step + 1)

/-- Round-to-nearest-even of the value `N / 2^54` to an IEEE-754 binary64 double,
returned at the same fixed scale `2^54`. Every value arising in the overall-score
expression is a dyadic rational with denominator `2^54` (the doubles 0.4 and 0.3 are
`7205759403792794/2^54` and `5404319552844595/2^54`), so binary64 arithmetic on them
is exactly: exact scaled-integer operation, then this rounding. A double with value
in the binade `[2^e, 2^(e+1))` has unit-in-the-last-place `2^(e-52)`, i.e. grid step
`2^(e+2)` at scale `2^54`; nonnegative values below `1/2` are already on the grid.
The branches cover values up to 256, well beyond the 0..101 range reachable from
component scores in [0,100]. -/
def fl54 (N : ℤ) : ℤ :=
  if N < 2 ^ 53 then N
  else if N < 2 ^ 54 then rnd_step N 2
  else if N < 2 ^ 55 then rnd_step N 4
  else if N < 2 ^ 56 then rnd_step N 8
  else if N < 2 ^ 57 then rnd_step N 16
  else if N < 2 ^ 58 then rnd_step N 32
  else if N < 2 ^ 59 then rnd_step N 64
  else if N < 2 ^ 60 then rnd_step N 128
  else if N < 2 ^ 61 then rnd_step N 256
  else rnd_step N 512

/-- Python `int()` (truncation toward zero) of the value `N / 2^54`. -/
def py_trunc_54 (N : ℤ) : ℤ :=
  if 0 ≤ N then N / 2 ^ 54 else -((-N) / 2 ^ 54)

/-- Overall score from the three component scores, from `orchestrator.py` line 711
(also `health_analysis_agents.py` line 150):
`overall_score = int(usage_score * 0.4 + relationship_score * 0.3 + support_score * 0.3)`,
embedded with IEEE-754 binary64 semantics: the literals 0.4 and 0.3 denote their
exact double values `7205759403792794/2^54` and `5404319552844595/2^54`, each
multiplication and addition rounds its exact result to the nearest double (`fl54`,
left-to-right evaluation as in Python), and `int()` truncates toward zero. -/
def overall_score (usage_score relationship_score support_score : ℤ) : ℤ :=
  py_trunc_54 (fl54 (fl54 (fl54 (usage_score * 7205759403792794) +
    fl54 (relationship_score * 5404319552844595)) +
    fl54 (support_score * 5404319552844595)))

/-- Health status from the overall score, from `orchestrator.py` lines 713-719
(also `health_analysis_agents.py` lines 152-158):
`>= 80` healthy, `elif >= 60` at_risk, `else` critical. -/
def health_status (overall : ℤ) : HealthStatus :=
  if overall ≥ 80 then .healthy
  else if overall ≥ 60 then .at_risk
  else .critical

/-- The overall score the spec claims: `round(0.4·usage + 0.3·relationship + 0.3·support)`.
This is the spec's words, kept separate from `overall_score` (the code), to compare the two. -/
def overall_score_spec (u r s : ℤ) : ℤ :=
  py_round ((u : ℚ) * 0.4 + (r : ℚ) * 0.3 + (s : ℚ) * 0.3)

lemma weighted_sum_eq (u r s : ℤ) :
    (u : ℚ) * 0.4 + (r : ℚ) * 0.3 + (s : ℚ) * 0.3 = ((4 * u + 3 * r + 3 * s : ℤ) : ℚ) / 10 := by
  push_cast
  ring

lemma rnd_step_bounds (N step : ℤ) (hstep : 0 < step) (h0 : 0 ≤ N) :
    N - step ≤ rnd_step N step ∧ rnd_step N step ≤ N + step ∧ 0 ≤ rnd_step N step := by
  unfold rnd_step
  have h1 := Int.emod_lt_of_pos N hstep
  have h2 := Int.emod_nonneg N (ne_of_gt hstep)
  have h3 := Int.ediv_add_emod N step
  have h4 : 0 ≤ step * (N / step) :=
    mul_nonneg (le_of_lt hstep) (Int.ediv_nonneg h0 (le_of_lt hstep))
  have h5 : step * (N / step + 1) = step * (N / step) + step := by ring
  split_ifs <;> omega

/-- Rounding to the nearest double moves a nonnegative scaled value by less than the
largest grid step used (512 at scale `2^54`, i.e. by less than `2^-45` in value), and
preserves nonnegativity. -/
lemma fl54_bounds (N : ℤ) (h0 : 0 ≤ N) :
    N - 512 ≤ fl54 N ∧ fl54 N ≤ N + 512 ∧ 0 ≤ fl54 N := by
  unfold fl54
  have b2 := rnd_step_bounds N 2 (by omega) h0
  have b4 := rnd_step_bounds N 4 (by omega) h0
  have b8 := rnd_step_bounds N 8 (by omega) h0
  have b16 := rnd_step_bounds N 16 (by omega) h0
  have b32 := rnd_step_bounds N 32 (by omega) h0
  have b64 := rnd_step_bounds N 64 (by omega) h0
  have b128 := rnd_step_bounds N 128 (by omega) h0
  have b256 := rnd_step_bounds N 256 (by omega) h0
  have b512 := rnd_step_bounds N 512 (by omega) h0
  split_ifs <;> omega

/-- C1, counterexample: at component scores (usage, relationship, support) = (0, 1, 1),
the code computes `int(0*0.4 + 1*0.3 + 1*0.3)`; in binary64 the sum is
`0.3 + 0.3 = 0.5999999999999999778…`, so `int()` truncates to 0, while the claimed
`round(0.6)` is 1; the overall score does not equal the claimed rounding. -/
theorem C1_cx_overall_score_not_round :
    overall_score 0 1 1 = 0 ∧ overall_score_spec 0 1 1 = 1 ∧
    overall_score 0 1 1 ≠ overall_score_spec 0 1 1 := by
  have hfloor : (⌊((6 : ℚ)) / 10⌋ : ℤ) = 0 := by
    rw [Int.floor_eq_iff]
    norm_num
  have h1 : overall_score 0 1 1 = 0 := by decide
  have h2 : overall_score_spec 0 1 1 = 1 := by
    unfold overall_score_spec py_round
    rw [weighted_sum_eq]
    norm_num [hfloor]
  exact ⟨h1, h2, by rw [h1, h2]; omega⟩

/-- C1 (amended): for component scores in [0,100], the overall score is
`int(0.4·u + 0.3·r + 0.3·s)` evaluated in binary64 and truncated toward zero (not
rounded to nearest); it is an integer in [0,100], and it equals the exact floor
`(4u + 3r + 3s)/10` or that floor minus one — one less exactly when rounding error
drops the float sum just below an integer (e.g. (0,1,9) gives `int(2.99…96) = 2`) —
and it remains a pure function of the three component scores alone. -/
theorem C1_overall_score_truncated_weighted_sum (u r s : ℤ)
    (hu0 : 0 ≤ u) (hu1 : u ≤ 100) (hr0 : 0 ≤ r) (hr1 : r ≤ 100)
    (hs0 : 0 ≤ s) (hs1 : s ≤ 100) :
    0 ≤ overall_score u r s ∧ overall_score u r s ≤ 100 ∧
    (4 * u + 3 * r + 3 * s) / 10 - 1 ≤ overall_score u r s ∧
    overall_score u r s ≤ (4 * u + 3 * r + 3 * s) / 10 := by
  have hb1 := fl54_bounds (u * 7205759403792794) (by omega)
  have hb2 := fl54_bounds (r * 5404319552844595) (by omega)
  have hb4 := fl54_bounds (s * 5404319552844595) (by omega)
  have hb3 := fl54_bounds (fl54 (u * 7205759403792794) + fl54 (r * 5404319552844595))
    (by omega)
  have hb5 := fl54_bounds (fl54 (fl54 (u * 7205759403792794) +
      fl54 (r * 5404319552844595)) + fl54 (s * 5404319552844595)) (by omega)
  unfold overall_score py_trunc_54
  rw [if_pos hb5.2.2]
  omega

/-- C1, witness: the amended theorem applied at (usage, relationship, support) =
(0, 1, 9): the overall score is in [0,100] and within one below the exact floor
`(4·0 + 3·1 + 3·9)/10 = 3`; here the minus-one case actually occurs — the program
computes `int(2.9999999999999996) = 2`. -/
theorem C1_overall_score_truncated_weighted_sum_witness :
    ((0:ℤ) ≤ 0 ∧ (0:ℤ) ≤ 100 ∧ (0:ℤ) ≤ 1 ∧ (1:ℤ) ≤ 100 ∧ (0:ℤ) ≤ 9 ∧ (9:ℤ) ≤ 100) ∧
    (0 ≤ overall_score 0 1 9 ∧ overall_score 0 1 9 ≤ 100 ∧
      (4 * 0 + 3 * 1 + 3 * 9) / 10 - 1 ≤ overall_score 0 1 9 ∧
      overall_score 0 1 9 ≤ (4 * 0 + 3 * 1 + 3 * 9) / 10) ∧
    overall_score 0 1 9 = 2 :=
  ⟨by omega,
   C1_overall_score_truncated_weighted_sum 0 1 9 (by omega) (by omega) (by omega)
     (by omega) (by omega) (by omega),
   by decide⟩

/-- C3: the derived health status is healthy exactly when the overall score is ≥ 80,
at_risk exactly when it is in 60–79, critical exactly when it is < 60; in particular
80 → healthy, 79 → at_risk, 60 → at_risk, 59 → critical. -/
theorem C3_health_status_boundaries (o : ℤ) :
    (health_status o = .healthy ↔ 80 ≤ o) ∧
    (health_status o = .at_risk ↔ 60 ≤ o ∧ o ≤ 79) ∧
    (health_status o = .critical ↔ o < 60) ∧
    health_status 80 = .healthy ∧ health_status 79 = .at_risk ∧
    health_status 60 = .at_risk ∧ health_status 59 = .critical := by
  refine ⟨?_, ?_, ?_, by decide, by decide, by decide, by decide⟩ <;>
    · unfold health_status
      split_ifs with h1 h2 <;> simp_all <;> omega

/-- Clamping of a component score, from `health_analysis_agents.py` lines 144-147:
`max(0, min(100, score))`. -/
def clamp_0_100 (x : ℤ) : ℤ := max 0 (min 100 x)

/-- Usage block of a customer record (`customer_data["usage_data"]`). Each field is
`Option` because the Python dict may lack the key; `.get` defaults are applied at use
sites exactly where the source applies them. -/
structure UsageData where
  total_logins : Option ℤ
  avg_session_duration : Option ℚ
  features_used : Option ℤ
  trend : Option String

/-- Outcome of parsing the `last_contact_date` string, from `health_analysis_agents.py`
lines 76-78. The external `datetime.fromisoformat` call and the subtraction from the
current time are embedded by their observable result: a successfully parsed date is
represented by its day distance `days_since_contact`, and a string on which the parse
raises (the `except` branch at line 88) by `unparseable`. -/
inductive LastContact where
  | parsed (days_since_contact : ℤ)
  | unparseable

/-- Relationship block of a customer record (`customer_data["relationship_data"]`).
`last_contact_date = none` embeds a missing (or falsy, e.g. empty-string) date value. -/
structure RelationshipData where
  last_contact_date : Option LastContact
  engagement_score : Option ℚ
  emails_responded : Option ℤ
  meetings_attended : Option ℤ
  contract_value : Option ℚ
  renewal_probability : Option ℚ

/-- Support block of a customer record (`customer_data["support_data"]`). -/
structure SupportData where
  open_tickets : Option ℤ
  avg_resolution_hours : Option ℚ
  satisfaction_score : Option ℚ
  escalations : Option ℤ

/-- Login-volume tier of the usage score, from `health_analysis_agents.py` lines 33-42. -/
def login_tier (u : UsageData) : ℤ :=
  if u.total_logins.getD 0 ≥ 50 then 40
  else if u.total_logins.getD 0 ≥ 25 then 30
  else if u.total_logins.getD 0 ≥ 10 then 20
  else 10

/-- Session-duration tier of the usage score, from `health_analysis_agents.py` lines 44-51. -/
def session_tier (u : UsageData) : ℤ :=
  if u.avg_session_duration.getD 0 ≥ 45 then 30
  else if u.avg_session_duration.getD 0 ≥ 25 then 20
  else if u.avg_session_duration.getD 0 ≥ 15 then 10
  else 0

/-- Feature-adoption tier of the usage score, from `health_analysis_agents.py` lines 53-60. -/
def feature_tier (u : UsageData) : ℤ :=
  if u.features_used.getD 0 ≥ 5 then 20
  else if u.features_used.getD 0 ≥ 3 then 15
  else if u.features_used.getD 0 ≥ 2 then 10
  else 0

/-- Activity-trend bonus of the usage score, from `health_analysis_agents.py` lines 62-67
(`usage.get("trend", "stable")`). -/
def trend_tier (u : UsageData) : ℤ :=
  if u.trend.getD "stable" = "increasing" then 10
  else if u.trend.getD "stable" = "stable" then 5
  else 0

/-- Usage score of `HealthScoringTool._run` (`health_analysis_agents.py` lines 24-68,
clamp at lines 144-145): 0 if the `usage_data` key is absent, otherwise the
accumulated tier sum, clamped to [0,100]. -/
def usage_score_tool : Option UsageData → ℤ
  | none => clamp_0_100 0
  | some u => clamp_0_100 (login_tier u + session_tier u + feature_tier u + trend_tier u)

/-- Contact-recency component of the relationship score, from
`health_analysis_agents.py` lines 73-89: nothing is added when the date is missing
(the `if last_contact:` guard fails), the day-distance tiers apply when it parses, and
the `except` branch adds the default 20 when parsing fails. -/
def contact_recency_score : Option LastContact → ℤ
  | none => 0
  | some (.parsed d) =>
    if d ≤ 7 then 40 else if d ≤ 14 then 30 else if d ≤ 30 then 20 else 10
  | some .unparseable => 20

/-- Engagement-quality component of the relationship score, from
`health_analysis_agents.py` lines 91-103. -/
def engagement_quality_score (r : RelationshipData) : ℤ :=
  if r.engagement_score.getD 0 > 80 ∨ (r.emails_responded.getD 0 > 5 ∧ r.meetings_attended.getD 0 > 2) then 40
  else if r.engagement_score.getD 0 > 60 ∨ (r.emails_responded.getD 0 > 3 ∧ r.meetings_attended.getD 0 > 1) then 30
  else if r.engagement_score.getD 0 > 40 ∨ r.emails_responded.getD 0 > 1 then 20
  else 10

/-- Contract-health component of the relationship score, from
`health_analysis_agents.py` lines 105-116 (`renewal_probability` defaults to 0.5). -/
def contract_health_score (r : RelationshipData) : ℤ :=
  if r.contract_value.getD 0 > 100000 ∧ r.renewal_probability.getD 0.5 > 0.8 then 20
  else if r.contract_value.getD 0 > 50000 ∧ r.renewal_probability.getD 0.5 > 0.6 then 15
  else if r.renewal_probability.getD 0.5 > 0.4 then 10
  else 5

/-- Relationship score of `HealthScoringTool._run` (`health_analysis_agents.py`
lines 69-116, clamp at line 146). -/
def relationship_score_tool : Option RelationshipData → ℤ
  | none => clamp_0_100 0
  | some r => clamp_0_100 (contact_recency_score r.last_contact_date +
      engagement_quality_score r + contract_health_score r)

/-- Support score of `HealthScoringTool._run` (`health_analysis_agents.py`
lines 118-142, clamp at line 147): starts at 100 and subtracts the four penalties
(`satisfaction_score` defaults to 5). -/
def support_score_tool : Option SupportData → ℤ
  | none => clamp_0_100 100
  | some s =>
    clamp_0_100 (100 - min (s.open_tickets.getD 0 * 15) 50
      - (if s.avg_resolution_hours.getD 0 > 72 then 20
         else if s.avg_resolution_hours.getD 0 > 48 then 10 else 0)
      - (if s.satisfaction_score.getD 5 < 3 then 30
         else if s.satisfaction_score.getD 5 < 4 then 15 else 0)
      - min (s.escalations.getD 0 * 10) 30)

/-- Usage score of the orchestrator, from `orchestrator.py` lines 912-931
(`_calculate_usage_score_from_dict`): `0` for a missing/empty block, otherwise
`int(min(total_logins*2, 40) + min(avg_session/60*30, 30) + min(features_used*7.5, 30))`.
Note this is a different formula from the tiered `usage_score_tool`. -/
def calculate_usage_score_from_dict : Option UsageData → ℤ
  | none => 0
  | some u =>
    py_int (min ((u.total_logins.getD 0 : ℚ) * 2) 40
      + min (u.avg_session_duration.getD 0 / 60 * 30) 30
      + min ((u.features_used.getD 0 : ℚ) * 7.5) 30)

/-- Relationship score of the orchestrator, from `orchestrator.py` lines 933-952
(`_calculate_relationship_score_from_dict`); `engagement_score` defaults to 50,
`renewal_probability` to 0.5. -/
def calculate_relationship_score_from_dict : Option RelationshipData → ℤ
  | none => 0
  | some r =>
    py_int (min (r.engagement_score.getD 50) 100 * 0.5
      + min (r.contract_value.getD 0 / 10000 * 20) 20
      + r.renewal_probability.getD 0.5 * 30)

/-- Support score of the orchestrator, from `orchestrator.py` lines 954-980
(`_calculate_support_score_from_dict`): 100 for a missing/empty block, otherwise
a satisfaction-based base minus ticket/escalation/resolution penalties, clamped
via `max(0, min(100, int(final_score)))`. -/
def calculate_support_score_from_dict : Option SupportData → ℤ
  | none => 100
  | some s =>
    max 0 (min 100 (py_int ((s.satisfaction_score.getD 4 / 5) * 100
      - (s.open_tickets.getD 0 : ℚ) * 15
      - (s.escalations.getD 0 : ℚ) * 10
      - (if s.avg_resolution_hours.getD 24 > 0
         then max 0 ((s.avg_resolution_hours.getD 24 - 24) / 24 * 20) else 0))))

/-- A recommendation, from `models/customer_health.py` (`Recommendation`). -/
structure Recommendation where
  action : String
  priority : RecommendationPriority
  timeline : String
  reasoning : String
deriving DecidableEq, Repr

/-- Usage-threshold recommendations, from `orchestrator.py` lines 987-1001. -/
def usage_recs (usage_score : ℤ) : List Recommendation :=
  if usage_score < 40 then
    [⟨"Schedule product training session to increase feature adoption",
      .high, "Within 1 week",
      s!"Low usage score ({usage_score}) indicates customer needs help maximizing product value"⟩]
  else if usage_score < 70 then
    [⟨"Share advanced feature guides and best practices",
      .medium, "Within 2 weeks",
      s!"Moderate usage score ({usage_score}) suggests opportunity for deeper engagement"⟩]
  else []

/-- Relationship-threshold recommendations, from `orchestrator.py` lines 1003-1017. -/
def relationship_recs (relationship_score : ℤ) : List Recommendation :=
  if relationship_score < 40 then
    [⟨"Schedule immediate check-in call with CSM to address relationship concerns",
      .critical, "Within 3 days",
      s!"Low relationship score ({relationship_score}) indicates urgent need for relationship repair"⟩]
  else if relationship_score < 70 then
    [⟨"Plan quarterly business review to strengthen relationship",
      .high, "Within 2 weeks",
      s!"Moderate relationship score ({relationship_score}) could benefit from regular check-ins"⟩]
  else []

/-- Support-threshold recommendations, from `orchestrator.py` lines 1019-1033. -/
def support_recs (support_score : ℤ) : List Recommendation :=
  if support_score < 40 then
    [⟨"Prioritize resolution of open support tickets and conduct satisfaction survey",
      .critical, "Immediately",
      s!"Low support score ({support_score}) indicates serious support issues affecting satisfaction"⟩]
  else if support_score < 70 then
    [⟨"Review support ticket history and proactively address common issues",
      .medium, "Within 1 week",
      s!"Moderate support score ({support_score}) suggests room for support improvement"⟩]
  else []

/-- Status catch-all recommendation, from `orchestrator.py` lines 1035-1056; one entry
is always appended, chosen by the health status. -/
def status_rec (st : HealthStatus) : Recommendation :=
  match st with
  | .critical =>
    ⟨"Initiate customer success intervention plan with executive involvement",
      .critical, "Within 24 hours",
      "Critical health status requires immediate executive attention to prevent churn"⟩
  | .at_risk =>
    ⟨"Develop customer success action plan with increased touchpoints",
      .high, "Within 1 week",
      "At-risk status requires proactive intervention to improve health"⟩
  | .healthy =>
    ⟨"Continue current engagement strategy and explore expansion opportunities",
      .low, "Within 1 month",
      "Healthy customer presents opportunity for account growth"⟩

/-- The threshold-rule part of the recommendation list, in the fixed source order
(usage, then relationship, then support), from `orchestrator.py` lines 985-1033. -/
def threshold_recs (u r s : ℤ) : List Recommendation :=
  usage_recs u ++ relationship_recs r ++ support_recs s

/-- Recommendation generation, from `orchestrator.py` lines 982-1059
(`_generate_recommendations`): the rules append in fixed order and the combined
list is truncated to its first 3 entries (`recommendations[:3]`). -/
def generate_recommendations (u r s : ℤ) (st : HealthStatus) : List Recommendation :=
  (threshold_recs u r s ++ [status_rec st]).take 3

/-- Result of scoring one customer, the fields of `CustomerHealthScore` that
`_create_single_customer_score` computes (identity/reasoning strings omitted). -/
structure SingleScoreResult where
  usage_score : ℤ
  relationship_score : ℤ
  support_score : ℤ
  overall : ℤ
  status : HealthStatus
  recommendations : List Recommendation

/-- Health scoring of one customer, from `orchestrator.py` lines 689-740
(`_create_single_customer_score`): component scores from the dict-based calculators,
overall score, status, and recommendations. -/
def create_single_customer_score (usage : Option UsageData) (rel : Option RelationshipData)
    (sup : Option SupportData) : SingleScoreResult :=
  let u := calculate_usage_score_from_dict usage
  let r := calculate_relationship_score_from_dict rel
  let s := calculate_support_score_from_dict sup
  let o := overall_score u r s
  ⟨u, r, s, o, health_status o, generate_recommendations u r s (health_status o)⟩

lemma login_tier_bounds (u : UsageData) : 10 ≤ login_tier u ∧ login_tier u ≤ 40 := by
  unfold login_tier
  split_ifs <;> omega

lemma session_tier_bounds (u : UsageData) : 0 ≤ session_tier u ∧ session_tier u ≤ 30 := by
  unfold session_tier
  split_ifs <;> omega

lemma feature_tier_bounds (u : UsageData) : 0 ≤ feature_tier u ∧ feature_tier u ≤ 20 := by
  unfold feature_tier
  split_ifs <;> omega

lemma trend_tier_bounds (u : UsageData) : 0 ≤ trend_tier u ∧ trend_tier u ≤ 10 := by
  unfold trend_tier
  split_ifs <;> omega

lemma overall_score_0_0_100 : overall_score 0 0 100 = 30 := by decide

/-- C2, counterexample: the orchestrator's usage scorer
(`_calculate_usage_score_from_dict`, cited by the claim) does not compute the tier
sum: on the block {total_logins=60, avg_session_duration=50, features_used=6,
trend="increasing"} it yields `int(min(120,40) + min(25,30) + min(45,30)) = 95`,
not the claimed 100 (the trend is ignored entirely by this formula). -/
theorem C2_cx_orchestrator_usage_score :
    calculate_usage_score_from_dict (some ⟨some 60, some 50, some 6, some "increasing"⟩) = 95 ∧
    (95 : ℤ) ≠ 100 := by
  constructor
  · unfold calculate_usage_score_from_dict py_int
    norm_num [min_def, Int.floor_eq_iff]
  · omega

/-- C2 (amended): for the `HealthScoringTool._run` health scorer the claim holds:
the usage score of a present block is exactly the sum of the login-volume tier,
session-duration tier, feature-count tier and trend bonus (the [0,100] clamp never
binds); an absent block yields 0; the all-zero block with trend in the "else" bucket
yields 10; and the example block yields 100. The orchestrator's
`_calculate_usage_score_from_dict` instead uses
`int(min(2·logins,40) + min(session/60·30,30) + min(7.5·features,30))`, which yields
95 on the example block. -/
theorem C2_usage_score_tool_tier_sum (u : UsageData) :
    usage_score_tool (some u) = login_tier u + session_tier u + feature_tier u + trend_tier u ∧
    usage_score_tool none = 0 ∧
    usage_score_tool (some ⟨some 0, some 0, some 0, some "decreasing"⟩) = 10 ∧
    usage_score_tool (some ⟨some 60, some 50, some 6, some "increasing"⟩) = 100 := by
  refine ⟨?_, rfl, ?_, ?_⟩
  · have h1 := login_tier_bounds u
    have h2 := session_tier_bounds u
    have h3 := feature_tier_bounds u
    have h4 := trend_tier_bounds u
    show clamp_0_100 _ = _
    unfold clamp_0_100
    omega
  · show clamp_0_100 _ = _
    norm_num [clamp_0_100, login_tier, session_tier, feature_tier, trend_tier]
    decide
  · show clamp_0_100 _ = _
    norm_num [clamp_0_100, login_tier, session_tier, feature_tier, trend_tier]

/-- C4: when all three blocks (usage, relationship, support) are absent, the scorer
yields usage 0, relationship 0, support 100 (absence of support data is a perfect
score), overall `int(0·0.4 + 0·0.3 + 100·0.3) = 30`, and status critical. -/
theorem C4_all_blocks_absent :
    (create_single_customer_score none none none).usage_score = 0 ∧
    (create_single_customer_score none none none).relationship_score = 0 ∧
    (create_single_customer_score none none none).support_score = 100 ∧
    (create_single_customer_score none none none).overall = 30 ∧
    (create_single_customer_score none none none).status = .critical := by
  have hov : (create_single_customer_score none none none).overall = overall_score 0 0 100 := rfl
  have hst : (create_single_customer_score none none none).status =
      health_status (overall_score 0 0 100) := rfl
  refine ⟨rfl, rfl, rfl, ?_, ?_⟩
  · rw [hov, overall_score_0_0_100]
  · rw [hst, overall_score_0_0_100]
    decide

/-- C5: the recommendation list always has length ≤ 3; the rules are evaluated in the
fixed order usage-threshold, relationship-threshold, support-threshold, then the
status catch-all, and the combined list is truncated to its first 3 entries — so the
catch-all entry appears exactly when fewer than 3 threshold rules fired, and always
last, after every threshold-rule recommendation. -/
theorem C5_recommendation_cap_and_order (u r s : ℤ) (st : HealthStatus) :
    (generate_recommendations u r s st).length ≤ 3 ∧
    (threshold_recs u r s).length ≤ 3 ∧
    generate_recommendations u r s st =
      (if (threshold_recs u r s).length = 3 then threshold_recs u r s
       else threshold_recs u r s ++ [status_rec st]) := by
  unfold generate_recommendations threshold_recs usage_recs relationship_recs support_recs
  split_ifs <;> simp_all

/-- C8, counterexample: when the last-contact date is missing (`relationship_data`
has no truthy `last_contact_date`), the contact-recency component is 0, not the
claimed neutral default 20: the `if last_contact:` guard skips the whole block, so
a record with engagement 90, contract 150000 and renewal 0.9 but no date scores
0 + 40 + 20 = 60 (were the claim right it would be 80). -/
theorem C8_cx_missing_date_scores_zero :
    contact_recency_score none = 0 ∧ contact_recency_score none ≠ 20 ∧
    relationship_score_tool (some ⟨none, some 90, some 0, some 0, some 150000, some 0.9⟩) = 60 := by
  refine ⟨rfl, by decide, ?_⟩
  norm_num [relationship_score_tool, clamp_0_100, contact_recency_score,
    engagement_quality_score, contract_health_score, Option.getD]

/-- C8 (amended): the contact-recency component is 40/30/20/10 according to
days-since-last-contact ≤7/≤14/≤30/otherwise, and a present but unparseable date
recovers locally to the neutral default 20 (the `except` branch); a missing or falsy
date, however, contributes 0, not 20. -/
theorem C8_contact_recency_tiers (d : ℤ) :
    (contact_recency_score (some (.parsed d)) = 40 ↔ d ≤ 7) ∧
    (contact_recency_score (some (.parsed d)) = 30 ↔ 7 < d ∧ d ≤ 14) ∧
    (contact_recency_score (some (.parsed d)) = 20 ↔ 14 < d ∧ d ≤ 30) ∧
    (contact_recency_score (some (.parsed d)) = 10 ↔ 30 < d) ∧
    contact_recency_score (some .unparseable) = 20 ∧
    contact_recency_score none = 0 := by
  refine ⟨?_, ?_, ?_, ?_, rfl, rfl⟩ <;>
    · show (if d ≤ 7 then (40:ℤ) else if d ≤ 14 then 30 else if d ≤ 30 then 20 else 10) = _ ↔ _
      split_ifs <;> omega

/-- ASCII lowercase of one character, embedding Python `str.lower()` on the
column/synonym names used here (all ASCII). -/
def low_char (c : Char) : Char :=
  if c.isUpper then Char.ofNat (c.toNat + 32) else c

/-- Lowercase of a string (`s.lower()` in the source); defined over the character
list so that it is kernel-executable. -/
def low_str (s : String) : String := String.mk (s.data.map low_char)

/-- Contiguous-sublist test on character lists, used to embed Python's
`needle in haystack` substring operator. -/
def list_isInfix_b : List Char → List Char → Bool
  | _, [] => false
  | n, l@(_ :: t) => n.isPrefixOf l || list_isInfix_b n t

/-- Python's `needle in haystack` on strings: `needle` occurs as a contiguous
substring of `haystack` (the empty needle always occurs). -/
def py_in (needle haystack : String) : Bool :=
  needle.data.isPrefixOf haystack.data || list_isInfix_b needle.data haystack.data

/-- Exact-match phase of `_find_field_by_patterns` (`data_integration_agents.py`
lines 348-352): the first pattern whose lowercase equals the lowercase of some
column name wins, and the first such column (in set-iteration order) is returned. -/
def exact_phase (field_names patterns : List String) : Option String :=
  patterns.findSome? fun p => field_names.find? fun f => low_str f == low_str p

/-- Partial-match phase of `_find_field_by_patterns` (`data_integration_agents.py`
lines 354-358): the first (pattern, column) pair, patterns outermost, where the
lowercase pattern occurs inside the lowercase column name. -/
def substring_phase (field_names patterns : List String) : Option String :=
  patterns.findSome? fun p => field_names.find? fun f => py_in (low_str p) (low_str f)

/-- Field-name classification, from `data_integration_agents.py` lines 344-360
(`_find_field_by_patterns`): exact match first, then substring match, else none. -/
def find_field_by_patterns (field_names patterns : List String) : Option String :=
  match exact_phase field_names patterns with
  | some f => some f
  | none => substring_phase field_names patterns

/-- Synonym list for the canonical key "email", from `data_integration_agents.py`
lines 286-289. -/
def email_synonyms : List String :=
  ["email_address", "email", "e-mail", "e_mail", "contact_email",
   "customer_email", "user_email", "primary_email"]

/-- Synonym list for "name", from `data_integration_agents.py` lines 290-293. -/
def name_synonyms : List String :=
  ["name", "full_name", "customer_name", "client_name", "contact_name",
   "first_name", "last_name", "display_name", "person_name"]

/-- Synonym list for "company", from `data_integration_agents.py` lines 294-297. -/
def company_synonyms : List String :=
  ["company", "company_name", "organization", "org", "business",
   "account", "account_name", "client", "customer_company"]

/-- Synonym list for "account_value", from `data_integration_agents.py` lines 298-302. -/
def account_value_synonyms : List String :=
  ["account_value", "value", "revenue", "contract_value", "deal_value",
   "ticket_size", "ticket size", "annual_revenue", "mrr", "arr", "amount", "price",
   "deal_amount", "contract_amount", "purchase_amount", "order_value"]

/-- Synonym list for "customer_id", from `data_integration_agents.py` lines 303-306. -/
def customer_id_synonyms : List String :=
  ["id", "customer_id", "client_id", "account_id", "user_id",
   "contact_id", "record_id", "reference"]

/-- Synonym list for "phone", from `data_integration_agents.py` lines 307-310. -/
def phone_synonyms : List String :=
  ["phone", "phone_number", "telephone", "mobile", "cell",
   "contact_phone", "primary_phone"]

/-- Synonym list for "created_date", from `data_integration_agents.py` lines 311-314. -/
def created_date_synonyms : List String :=
  ["created", "created_date", "date_created", "signup_date",
   "registration_date", "start_date", "onboarding_date"]

/-- Synonym list for "last_contact", from `data_integration_agents.py` lines 315-318. -/
def last_contact_synonyms : List String :=
  ["last_contact", "last_contact_date", "last_interaction",
   "last_touch", "last_activity", "recent_contact"]

/-- Synonym list for "engagement_score", from `data_integration_agents.py` lines 319-322. -/
def engagement_score_synonyms : List String :=
  ["engagement", "engagement_score", "customer_engagement",
   "engagement_rating", "activity_score", "involvement_score"]

/-- Synonym list for "customer_type", from `data_integration_agents.py` lines 323-326. -/
def customer_type_synonyms : List String :=
  ["type", "customer_type", "client_type", "tier", "segment",
   "category", "classification", "status"]

/-- Synonym list for "sentiment", from `data_integration_agents.py` lines 327-330. -/
def sentiment_synonyms : List String :=
  ["sentiment", "email_sentiment", "mood", "satisfaction",
   "feedback", "rating", "score"]

/-- Synonym list for "last_purchase", from `data_integration_agents.py` lines 331-334. -/
def last_purchase_synonyms : List String :=
  ["last_purchase", "last_order", "recent_purchase", "latest_order",
   "last_transaction", "purchase_date"]

/-- A cell value of an Airtable record. Mirrors the duck-typed shapes the source
distinguishes: plain strings (`isinstance(value, str)`), numbers, booleans, objects
(dicts, including computed fields with a `value` key), and lists. -/
inductive CellValue where
  | vStr (s : String)
  | vNum (q : ℚ)
  | vBool (b : Bool)
  | vDict (entries : List (String × CellValue))
  | vList (items : List CellValue)

/-- One raw Airtable record: its `fields` dict (`record.get("fields", {})`),
embedded as an association list with the dict's (unique) keys. -/
structure AirRecord where
  fields : List (String × CellValue)

/-- The field mapping `_discover_schema` builds: at most one raw column name per
canonical key, `none` when no pattern matched. -/
structure FieldMapping where
  email : Option String
  name : Option String
  company : Option String
  account_value : Option String
  customer_id : Option String
  phone : Option String
  created_date : Option String
  last_contact : Option String
  engagement_score : Option String
  customer_type : Option String
  sentiment : Option String
  last_purchase : Option String

/-- The union of all field names over the sample records (`all_fields` in
`_discover_schema`, lines 280-282). The Python value is a `set`; it is embedded as
the duplicate-free list of keys in first-seen order, one of the set's possible
iteration orders. -/
def all_fields_of (sample_records : List AirRecord) : List String :=
  ((sample_records.map fun r => r.fields.map Prod.fst).flatten).eraseDups

/-- Schema discovery, from `data_integration_agents.py` lines 274-342
(`_discover_schema`): the empty mapping for an empty sample, otherwise one
`_find_field_by_patterns` call per canonical key with its fixed synonym list. -/
def discover_schema (sample_records : List AirRecord) : FieldMapping :=
  if sample_records.isEmpty then
    ⟨none, none, none, none, none, none, none, none, none, none, none, none⟩
  else
    let all_fields := all_fields_of sample_records
    ⟨find_field_by_patterns all_fields email_synonyms,
     find_field_by_patterns all_fields name_synonyms,
     find_field_by_patterns all_fields company_synonyms,
     find_field_by_patterns all_fields account_value_synonyms,
     find_field_by_patterns all_fields customer_id_synonyms,
     find_field_by_patterns all_fields phone_synonyms,
     find_field_by_patterns all_fields created_date_synonyms,
     find_field_by_patterns all_fields last_contact_synonyms,
     find_field_by_patterns all_fields engagement_score_synonyms,
     find_field_by_patterns all_fields customer_type_synonyms,
     find_field_by_patterns all_fields sentiment_synonyms,
     find_field_by_patterns all_fields last_purchase_synonyms⟩

/-- Python truthiness of an optional field-mapping entry (`if field_mapping.get(k):`):
present and a non-empty string. -/
def truthy_opt_str : Option String → Bool
  | none => false
  | some s => !(s == "")

/-- Whether one cell value makes the target-email bonus fire, from
`data_integration_agents.py` lines 263-264: a string cell containing the lowercased
target as a substring. -/
def cell_contains (target : String) : CellValue → Bool
  | .vStr s => py_in (low_str target) (low_str s)
  | _ => false

/-- Table-suitability scoring, from `data_integration_agents.py` lines 237-272
(`_score_table_for_customers`): additive field bonuses, a +20 bonus per sampled
record containing the target email (the `break` leaves only the inner loop), a −10
penalty for fewer than 3 sample records, clamped to [0,100]. -/
def score_table_for_customers (field_mapping : FieldMapping) (sample_records : List AirRecord)
    (target_email : String) : ℕ :=
  let base : ℤ :=
    (if truthy_opt_str field_mapping.email then 40 else 0) +
    (if truthy_opt_str field_mapping.name then 20 else 0) +
    (if truthy_opt_str field_mapping.customer_id then 15 else 0) +
    (if truthy_opt_str field_mapping.company then 5 else 0) +
    (if truthy_opt_str field_mapping.phone then 5 else 0) +
    (if truthy_opt_str field_mapping.account_value then 10 else 0) +
    (if truthy_opt_str field_mapping.customer_type then 5 else 0)
  let bonus : ℤ :=
    if target_email ≠ "" ∧ ¬ sample_records.isEmpty then
      20 * ((sample_records.countP fun r => r.fields.any fun kv => cell_contains target_email kv.2 : ℕ) : ℤ)
    else 0
  let penalty : ℤ := if sample_records.length < 3 then -10 else 0
  (max 0 (min 100 (base + bonus + penalty))).toNat

/-- One candidate table during discovery: its name and the sample records read from
it (`table.all(max_records=10)`). -/
structure CandidateTable where
  name : String
  records : List AirRecord

/-- The (name, field-mapping) pair `_discover_best_table` keeps for a winning table. -/
def table_candidate (t : CandidateTable) : String × FieldMapping :=
  (t.name, discover_schema t.records)

/-- Effective score of a candidate in the discovery loop: empty tables are skipped
(`continue` at line 165) and can never win, so they count as 0. -/
def eff_score (target : String) (t : CandidateTable) : ℕ :=
  if t.records.isEmpty then 0
  else score_table_for_customers (discover_schema t.records) t.records target

/-- The discovery loop of `_discover_best_table` (`data_integration_agents.py`
lines 150-187): running best with strict improvement (`if score > best_score`),
starting from `best = None`, `best_score = 0`. -/
def discover_go (target : String) :
    List CandidateTable → Option (String × FieldMapping) → ℕ → Option (String × FieldMapping)
  | [], best, _ => best
  | t :: rest, best, best_score =>
    if t.records.isEmpty then discover_go target rest best best_score
    else
      let fm := discover_schema t.records
      let sc := score_table_for_customers fm t.records target
      if best_score < sc then discover_go target rest (some (t.name, fm)) sc
      else discover_go target rest best best_score

/-- Best-table discovery, from `data_integration_agents.py` lines 126-191
(`_discover_best_table`): returns the winning (table name, field mapping), or none. -/
def discover_best_table (tables : List CandidateTable) (customer_email : String) :
    Option (String × FieldMapping) :=
  discover_go customer_email tables none 0

/-- The orchestrator's use of discovery, from `orchestrator.py` lines 434-437: a
`none` result becomes the structured error payload, not a crash. -/
def collect_airtable_discovery (tables : List CandidateTable) (customer_email : String) :
    Except String (String × FieldMapping) :=
  match discover_best_table tables customer_email with
  | none => .error "Could not find any accessible customer table in Airtable"
  | some x => .ok x

/-- Running maximum of effective scores with initial value `b`, used to specify the
discovery loop. -/
def max_score (target : String) (l : List CandidateTable) (b : ℕ) : ℕ :=
  l.foldl (fun a t => max a (eff_score target t)) b

lemma max_score_cons (target : String) (t : CandidateTable) (l : List CandidateTable) (b : ℕ) :
    max_score target (t :: l) b = max_score target l (max b (eff_score target t)) := rfl

lemma le_max_score (target : String) (l : List CandidateTable) : ∀ b : ℕ, b ≤ max_score target l b := by
  induction l with
  | nil => intro b; exact le_refl b
  | cons t rest ih =>
    intro b
    rw [max_score_cons]
    exact le_trans (le_max_left _ _) (ih _)

lemma eff_le_max_score (target : String) (l : List CandidateTable) (t : CandidateTable)
    (h : t ∈ l) : ∀ b : ℕ, eff_score target t ≤ max_score target l b := by
  induction l with
  | nil => cases h
  | cons s rest ih =>
    intro b
    rw [max_score_cons]
    rcases List.mem_cons.mp h with heq | hmem
    · rw [heq]
      exact le_trans (le_max_right _ _) (le_max_score target rest _)
    · exact ih hmem _

lemma max_score_of_all_le (target : String) (l : List CandidateTable) :
    ∀ b : ℕ, (∀ t ∈ l, eff_score target t ≤ b) → max_score target l b = b := by
  induction l with
  | nil => intro b _; rfl
  | cons t rest ih =>
    intro b h
    rw [max_score_cons, max_eq_left (h t (List.mem_cons_self t rest))]
    exact ih b (fun u hu => h u (List.mem_cons_of_mem t hu))

lemma discover_go_cons (target : String) (t : CandidateTable) (rest : List CandidateTable)
    (best : Option (String × FieldMapping)) (b : ℕ) :
    discover_go target (t :: rest) best b =
      if t.records.isEmpty then discover_go target rest best b
      else if b < score_table_for_customers (discover_schema t.records) t.records target then
        discover_go target rest (some (t.name, discover_schema t.records))
          (score_table_for_customers (discover_schema t.records) t.records target)
      else discover_go target rest best b := rfl

/-- Characterization of the discovery loop: running strict-improvement maximum keeps
the accumulator iff nothing beats it, and otherwise selects the first candidate that
attains the overall maximum (so ties go to the earlier-discovered table). -/
lemma discover_go_spec (target : String) (l : List CandidateTable) :
    ∀ (best : Option (String × FieldMapping)) (b : ℕ),
    discover_go target l best b =
      if ∃ t ∈ l, b < eff_score target t
      then (l.find? fun t => eff_score target t == max_score target l b).map table_candidate
      else best := by
  induction l with
  | nil =>
    intro best b
    simp [discover_go]
  | cons t rest ih =>
    intro best b
    rw [discover_go_cons]
    by_cases hemp : t.records.isEmpty = true
    · have heff : eff_score target t = 0 := by simp [eff_score, hemp]
      rw [if_pos hemp, ih best b]
      have hcond : (∃ u ∈ t :: rest, b < eff_score target u) ↔
          (∃ u ∈ rest, b < eff_score target u) := by
        constructor
        · rintro ⟨u, hu, hlt⟩
          rcases List.mem_cons.mp hu with heq | hm
          · rw [heq, heff] at hlt
            omega
          · exact ⟨u, hm, hlt⟩
        · rintro ⟨u, hu, hlt⟩
          exact ⟨u, List.mem_cons_of_mem t hu, hlt⟩
      have hms : max_score target (t :: rest) b = max_score target rest b := by
        rw [max_score_cons, heff]
        simp
      by_cases hex : ∃ u ∈ rest, b < eff_score target u
      · rw [if_pos hex, if_pos (hcond.mpr hex), hms]
        have hMgt : b < max_score target rest b := by
          obtain ⟨u, hu, hlt⟩ := hex
          exact lt_of_lt_of_le hlt (eff_le_max_score target rest u hu b)
        have hhead : (eff_score target t == max_score target rest b) = false := by
          rw [heff]
          simp only [beq_eq_false_iff_ne]
          omega
        rw [List.find?_cons_of_neg _ (by simp [hhead]), ]
      · rw [if_neg hex, if_neg (fun hc => hex (hcond.mp hc))]
    · have heff : eff_score target t =
          score_table_for_customers (discover_schema t.records) t.records target := by
        simp [eff_score, hemp]
      rw [if_neg hemp, ← heff]
      by_cases hlt : b < eff_score target t
      · rw [if_pos hlt, ih (some (t.name, discover_schema t.records)) (eff_score target t)]
        have hcand : some (t.name, discover_schema t.records) = some (table_candidate t) := rfl
        have hcons : ∃ u ∈ t :: rest, b < eff_score target u :=
          ⟨t, List.mem_cons_self t rest, hlt⟩
        rw [if_pos hcons]
        have hms : max_score target (t :: rest) b = max_score target rest (eff_score target t) := by
          rw [max_score_cons, max_eq_right (le_of_lt hlt)]
        rw [hms]
        by_cases hex2 : ∃ u ∈ rest, eff_score target t < eff_score target u
        · rw [if_pos hex2]
          have hMgt : eff_score target t < max_score target rest (eff_score target t) := by
            obtain ⟨u, hu, hlt2⟩ := hex2
            exact lt_of_lt_of_le hlt2 (eff_le_max_score target rest u hu _)
          have hhead : (eff_score target t == max_score target rest (eff_score target t)) = false := by
            simp only [beq_eq_false_iff_ne]
            omega
          rw [List.find?_cons_of_neg _ (by simp [hhead])]
        · rw [if_neg hex2]
          have hall : ∀ u ∈ rest, eff_score target u ≤ eff_score target t := by
            intro u hu
            by_contra hcon
            exact hex2 ⟨u, hu, by omega⟩
          have hms2 : max_score target rest (eff_score target t) = eff_score target t :=
            max_score_of_all_le target rest _ hall
          rw [hms2, List.find?_cons_of_pos _ (by simp)]
          exact hcand.symm ▸ rfl
      · rw [if_neg hlt, ih best b]
        have hcond : (∃ u ∈ t :: rest, b < eff_score target u) ↔
            (∃ u ∈ rest, b < eff_score target u) := by
          constructor
          · rintro ⟨u, hu, hlt2⟩
            rcases List.mem_cons.mp hu with heq | hm
            · rw [heq] at hlt2
              omega
            · exact ⟨u, hm, hlt2⟩
          · rintro ⟨u, hu, hlt2⟩
            exact ⟨u, List.mem_cons_of_mem t hu, hlt2⟩
        have hms : max_score target (t :: rest) b = max_score target rest b := by
          rw [max_score_cons, max_eq_left (by omega)]
        by_cases hex : ∃ u ∈ rest, b < eff_score target u
        · rw [if_pos hex, if_pos (hcond.mpr hex), hms]
          have hMgt : b < max_score target rest b := by
            obtain ⟨u, hu, hlt2⟩ := hex
            exact lt_of_lt_of_le hlt2 (eff_le_max_score target rest u hu b)
          have hhead : (eff_score target t == max_score target rest b) = false := by
            simp only [beq_eq_false_iff_ne]
            omega
          rw [List.find?_cons_of_neg _ (by simp [hhead])]
        · rw [if_neg hex, if_neg (fun hc => hex (hcond.mp hc))]

/-- C7: the discovery routine returns the single candidate table with the highest
confidence score — specifically the first candidate attaining the maximum, since the
loop only replaces the running best on a strictly greater score, so ties favor the
earlier-discovered table; and when every candidate scores 0 it returns no table,
which the orchestrator surfaces as the structured "no suitable table found" error
payload rather than a crash. -/
theorem C7_best_table_selection (tables : List CandidateTable) (email : String) :
    ((∀ t ∈ tables, eff_score email t = 0) →
      discover_best_table tables email = none ∧
      collect_airtable_discovery tables email =
        Except.error "Could not find any accessible customer table in Airtable") ∧
    (∀ nm fm, discover_best_table tables email = some (nm, fm) →
      ∃ t, tables.find? (fun u => eff_score email u == max_score email tables 0) = some t ∧
        t ∈ tables ∧ (nm, fm) = table_candidate t ∧ 0 < eff_score email t ∧
        ∀ u ∈ tables, eff_score email u ≤ eff_score email t) := by
  constructor
  · intro hall
    have hnone : discover_best_table tables email = none := by
      unfold discover_best_table
      rw [discover_go_spec, if_neg]
      rintro ⟨t, ht, hlt⟩
      rw [hall t ht] at hlt
      omega
    refine ⟨hnone, ?_⟩
    unfold collect_airtable_discovery
    rw [hnone]
  · intro nm fm hsome
    unfold discover_best_table at hsome
    rw [discover_go_spec] at hsome
    by_cases hex : ∃ t ∈ tables, 0 < eff_score email t
    · rw [if_pos hex] at hsome
      obtain ⟨t, hfind, hcand⟩ := Option.map_eq_some'.mp hsome
      have hp := List.find?_some hfind
      have heq : eff_score email t = max_score email tables 0 := by
        simpa using hp
      refine ⟨t, hfind, List.mem_of_find?_eq_some hfind, hcand.symm, ?_, ?_⟩
      · obtain ⟨u, hu, hlt⟩ := hex
        have := eff_le_max_score email tables u hu 0
        omega
      · intro u hu
        have := eff_le_max_score email tables u hu 0
        omega
    · rw [if_neg hex] at hsome
      exact absurd hsome (by simp)

/-- A concrete candidate table whose only column matches no canonical-field synonym,
so its confidence score is 0. -/
def witness_table : CandidateTable :=
  ⟨"Notes Table", [⟨[("Notes", CellValue.vStr "hello")]⟩]⟩

/-- C7, witness: on a singleton candidate list whose table scores 0 (no canonical
field matches, fewer than 3 records), discovery returns no table and the
orchestrator's wrapper returns the structured error payload. -/
theorem C7_best_table_selection_witness :
    (∀ t ∈ [witness_table], eff_score "" t = 0) ∧
    (discover_best_table [witness_table] "" = none ∧
      collect_airtable_discovery [witness_table] "" =
        Except.error "Could not find any accessible customer table in Airtable") :=
  ⟨by decide, (C7_best_table_selection [witness_table] "").1 (by decide)⟩

lemma py_in_self (s : String) : py_in s s = true := by
  unfold py_in
  rw [Bool.or_eq_true]
  left
  rw [List.isPrefixOf_iff_prefix]

lemma find_first_match {α : Type} (p : α → Bool) (l : List α) (a : α) (ha : a ∈ l)
    (hpa : p a = true) (hother : ∀ x ∈ l, x ≠ a → p x = false) : l.find? p = some a := by
  induction l with
  | nil => cases ha
  | cons x rest ih =>
    by_cases hxa : x = a
    · subst hxa
      exact List.find?_cons_of_pos rest hpa
    · rw [List.find?_cons_of_neg rest
        (by simp [hother x (List.mem_cons_self x rest) hxa])]
      rcases List.mem_cons.mp ha with heq | hm
      · exact absurd heq.symm hxa
      · exact ih hm (fun y hy hya => hother y (List.mem_cons_of_mem x hy) hya)

/-- C6, counterexample: "Email Address" is not an exact match of any email synonym
(the synonym list has "email_address", with an underscore), so it is only found by the
substring rule; when another column containing "email" comes first in the set's
iteration order, that column wins instead. Here the classifier binds "email" to
"Work Email", not to the column named exactly "Email Address" — both directly in
`_find_field_by_patterns` and through `_discover_schema`. -/
theorem C6_cx_email_address_not_exact :
    find_field_by_patterns ["Work Email", "Email Address"] email_synonyms = some "Work Email" ∧
    some "Work Email" ≠ some "Email Address" ∧
    (discover_schema [⟨[("Work Email", CellValue.vStr "a@b.com"),
        ("Email Address", CellValue.vStr "c@d.com")]⟩]).email = some "Work Email" := by
  refine ⟨by decide, by decide, by decide⟩

/-- C6 (amended): if a column is named exactly "Email Address" and no other column
name contains any email synonym as a case-insensitive substring, the classifier binds
the canonical key "email" to that column — but through the substring rule (the synonym
"email" occurs in "email address"), not the exact rule: "email address" equals no
entry of the synonym list, so exact-match priority never applies to it, and a
different column containing a synonym can win depending on set-iteration order. -/
theorem C6_email_address_binding (fields : List String)
    (hmem : "Email Address" ∈ fields)
    (hothers : ∀ f ∈ fields, f ≠ "Email Address" →
      ∀ p ∈ email_synonyms, py_in (low_str p) (low_str f) = false) :
    find_field_by_patterns fields email_synonyms = some "Email Address" := by
  have hexact : exact_phase fields email_synonyms = none := by
    unfold exact_phase
    rw [List.findSome?_eq_none_iff]
    intro p hp
    rw [List.find?_eq_none]
    intro f hf
    by_cases hfe : f = "Email Address"
    · subst hfe
      simp only [email_synonyms, List.mem_cons, List.not_mem_nil, or_false] at hp
      rcases hp with rfl | rfl | rfl | rfl | rfl | rfl | rfl | rfl <;> decide
    · intro hbeq
      have heq : low_str f = low_str p := by simpa using hbeq
      have hfalse := hothers f hf hfe p hp
      rw [← heq, py_in_self] at hfalse
      exact Bool.noConfusion hfalse
  have h1 : fields.find? (fun f => py_in (low_str "email_address") (low_str f)) = none := by
    rw [List.find?_eq_none]
    intro f hf
    by_cases hfe : f = "Email Address"
    · subst hfe
      decide
    · simp [hothers f hf hfe "email_address" (by simp [email_synonyms])]
  have h2 : fields.find? (fun f => py_in (low_str "email") (low_str f)) = some "Email Address" :=
    find_first_match _ fields "Email Address" hmem (by decide)
      (fun x hx hne => hothers x hx hne "email" (by simp [email_synonyms]))
  have hpartial : substring_phase fields email_synonyms = some "Email Address" := by
    unfold substring_phase email_synonyms
    rw [List.findSome?_cons, h1, List.findSome?_cons, h2]
  unfold find_field_by_patterns
  rw [hexact, hpartial]

/-- C6, witness: the amended theorem applied to the column set {"Name", "Email Address"}
(in one of its iteration orders): "Name" contains no email synonym, so the classifier
binds "email" to "Email Address". -/
theorem C6_email_address_binding_witness :
    ("Email Address" ∈ (["Name", "Email Address"] : List String)) ∧
    find_field_by_patterns ["Name", "Email Address"] email_synonyms = some "Email Address" :=
  ⟨by decide, C6_email_address_binding ["Name", "Email Address"] (by decide) (by decide)⟩

/-- Dict lookup on the field mapping (`field_mapping.get(key)` in
`_extract_field_value`), over the 12 canonical keys of `_discover_schema`. -/
def fm_get (fm : FieldMapping) (key : String) : Option String :=
  if key = "email" then fm.email
  else if key = "name" then fm.name
  else if key = "company" then fm.company
  else if key = "account_value" then fm.account_value
  else if key = "customer_id" then fm.customer_id
  else if key = "phone" then fm.phone
  else if key = "created_date" then fm.created_date
  else if key = "last_contact" then fm.last_contact
  else if key = "engagement_score" then fm.engagement_score
  else if key = "customer_type" then fm.customer_type
  else if key = "sentiment" then fm.sentiment
  else if key = "last_purchase" then fm.last_purchase
  else none

/-- Field-value extraction, from `data_integration_agents.py` lines 362-374
(`_extract_field_value`): `None` when the key is unmapped (or mapped to a falsy
name), else the raw cell value, unwrapping a computed dict value's `value` entry. -/
def extract_field_value (fields : List (String × CellValue)) (fm : FieldMapping)
    (key : String) : Option CellValue :=
  match fm_get fm key with
  | none => none
  | some mapped_field =>
    if mapped_field = "" then none
    else
      match (fields.find? fun kv => kv.1 == mapped_field).map Prod.snd with
      | some (.vDict entries) =>
        match entries.find? fun kv => kv.1 == "value" with
        | some kv => some kv.2
        | none => some (.vDict entries)
      | v => v

/-- The canonical keys in the order `_discover_schema` declares them. -/
def canonical_keys : List String :=
  ["email", "name", "company", "account_value", "customer_id", "phone",
   "created_date", "last_contact", "engagement_score", "customer_type",
   "sentiment", "last_purchase"]

/-- One synthesis pass over a raw row: extract every canonical key through the
mapping, returning both the extracted values and the (unchanged) row and mapping
state — the state is threaded explicitly so that "no mutation" is part of the
embedded result, mirroring that `_extract_field_value` only reads via `dict.get`. -/
def synthesize_pass (st : List (String × CellValue) × FieldMapping) :
    List (String × Option CellValue) × (List (String × CellValue) × FieldMapping) :=
  (canonical_keys.map fun k => (k, extract_field_value st.1 st.2 k), st)

/-- C9: record synthesis is deterministic and idempotent — running the extraction of
all canonical keys twice over the same raw row and mapping yields identical value
lists for every canonical key, and neither run mutates the row or the mapping. -/
theorem C9_synthesis_idempotent (fields : List (String × CellValue)) (fm : FieldMapping) :
    (synthesize_pass (fields, fm)).2 = (fields, fm) ∧
    (synthesize_pass ((synthesize_pass (fields, fm)).2)).1 = (synthesize_pass (fields, fm)).1 ∧
    (synthesize_pass ((synthesize_pass (fields, fm)).2)).2 = (fields, fm) :=
  ⟨rfl, rfl, rfl⟩

/-- The credential environment `set_data_source` consults via `os.getenv`:
`none` embeds an unset variable, `some ""` an empty (falsy) one. -/
structure Env where
  airtable_api_key : Option String
  airtable_base_id : Option String
  hubspot_api_key : Option String
  zapier_api_key : Option String

/-- The orchestrator state `set_data_source` touches (`orchestrator.py` lines 33-43):
the selected source, the static-data flag, and the active Airtable base. -/
structure OrchestratorState where
  current_data_source : String
  use_static_data : Bool
  active_airtable_base_id : Option String

/-- The structured payload `set_data_source` returns: a success dict with the data
source and message, or an error dict. -/
inductive SetSourceResult where
  | ok (data_source message : String)
  | err (error : String)
deriving DecidableEq, Repr

/-- Python truthiness of `os.getenv(...)`: set and non-empty. -/
def env_truthy : Option String → Bool
  | none => false
  | some s => !(s == "")

/-- Data-source selection, from `orchestrator.py` lines 45-101 (`set_data_source`):
an unrecognized name returns an error before any state change; a recognized name
updates `current_data_source` (line 56) and `use_static_data` before the credential
check, so a credential error still leaves the new source selected. -/
def set_data_source (env : Env) (st : OrchestratorState) (data_source : String) :
    OrchestratorState × SetSourceResult :=
  if data_source ∉ (["static", "airtable", "hubspot", "zapier"] : List String) then
    (st, .err s!"Invalid data source: {data_source}. Must be one of: static, airtable, hubspot, zapier")
  else
    let st1 := { st with current_data_source := data_source }
    if data_source = "static" then
      ({ st1 with use_static_data := true },
        .ok data_source "Using sample database with 5 demo customers (TechCorp Inc, DataSolutions LLC, StartupXYZ, Enterprise Global, SmallBiz Co)")
    else if data_source = "airtable" then
      let st2 := { st1 with use_static_data := false }
      if ¬ (env_truthy env.airtable_api_key = true ∧ env_truthy env.airtable_base_id = true) then
        (st2, .err "Airtable integration requires AIRTABLE_API_KEY and AIRTABLE_BASE_ID environment variables. See AIRTABLE_SETUP.md for setup instructions.")
      else
        (st2, .ok data_source ("Using Airtable database (Base ID: " ++
          env.airtable_base_id.getD "Not configured" ++ ")"))
    else if data_source = "hubspot" then
      let st2 := { st1 with use_static_data := false }
      if ¬ env_truthy env.hubspot_api_key = true then
        (st2, .err "HubSpot integration requires HUBSPOT_API_KEY environment variable. This feature is coming soon.")
      else
        (st2, .ok data_source "Using HubSpot CRM (Feature coming soon)")
    else
      let st2 := { st1 with use_static_data := false }
      if ¬ env_truthy env.zapier_api_key = true then
        (st2, .err "Zapier integration requires ZAPIER_API_KEY environment variable. This feature is coming soon.")
      else
        (st2, .ok data_source "Using Zapier integration (Feature coming soon)")

/-- C10: for each recognized non-static source whose credentials are missing,
`set_data_source` returns the structured error payload, but `current_data_source`
has already been set to the requested source (and `use_static_data` cleared) before
the credential check — the error path does not restore the prior selection; only an
unrecognized source name leaves the orchestrator state entirely unchanged. -/
theorem C10_set_data_source_error_paths (env : Env) (st : OrchestratorState) :
    (¬ (env_truthy env.airtable_api_key = true ∧ env_truthy env.airtable_base_id = true) →
      (set_data_source env st "airtable").2 = .err "Airtable integration requires AIRTABLE_API_KEY and AIRTABLE_BASE_ID environment variables. See AIRTABLE_SETUP.md for setup instructions." ∧
      (set_data_source env st "airtable").1.current_data_source = "airtable" ∧
      (set_data_source env st "airtable").1.use_static_data = false ∧
      (set_data_source env st "airtable").1.active_airtable_base_id = st.active_airtable_base_id) ∧
    (¬ env_truthy env.hubspot_api_key = true →
      (set_data_source env st "hubspot").2 = .err "HubSpot integration requires HUBSPOT_API_KEY environment variable. This feature is coming soon." ∧
      (set_data_source env st "hubspot").1.current_data_source = "hubspot" ∧
      (set_data_source env st "hubspot").1.use_static_data = false ∧
      (set_data_source env st "hubspot").1.active_airtable_base_id = st.active_airtable_base_id) ∧
    (¬ env_truthy env.zapier_api_key = true →
      (set_data_source env st "zapier").2 = .err "Zapier integration requires ZAPIER_API_KEY environment variable. This feature is coming soon." ∧
      (set_data_source env st "zapier").1.current_data_source = "zapier" ∧
      (set_data_source env st "zapier").1.use_static_data = false ∧
      (set_data_source env st "zapier").1.active_airtable_base_id = st.active_airtable_base_id) ∧
    (∀ ds, ds ∉ (["static", "airtable", "hubspot", "zapier"] : List String) →
      (set_data_source env st ds).1 = st ∧
      (set_data_source env st ds).2 =
        .err s!"Invalid data source: {ds}. Must be one of: static, airtable, hubspot, zapier") := by
  refine ⟨?_, ?_, ?_, ?_⟩
  · intro h
    simp [set_data_source, h]
  · intro h
    simp [set_data_source, h]
  · intro h
    simp [set_data_source, h]
  · intro ds hds
    unfold set_data_source
    rw [if_pos hds]
    exact ⟨rfl, rfl⟩

/-- An environment with no credentials configured. -/
def env_no_creds : Env := ⟨none, none, none, none⟩

/-- The initial orchestrator state: static source, static data, no active base. -/
def st_static : OrchestratorState := ⟨"static", true, none⟩

/-- C10, witness: with no credentials configured, selecting "airtable" returns the
credential error payload while `current_data_source` is already "airtable",
`use_static_data` is cleared, and the active base is untouched. -/
theorem C10_set_data_source_error_paths_witness :
    (¬ (env_truthy env_no_creds.airtable_api_key = true ∧
        env_truthy env_no_creds.airtable_base_id = true)) ∧
    ((set_data_source env_no_creds st_static "airtable").2 = .err "Airtable integration requires AIRTABLE_API_KEY and AIRTABLE_BASE_ID environment variables. See AIRTABLE_SETUP.md for setup instructions." ∧
     (set_data_source env_no_creds st_static "airtable").1.current_data_source = "airtable" ∧
     (set_data_source env_no_creds st_static "airtable").1.use_static_data = false ∧
     (set_data_source env_no_creds st_static "airtable").1.active_airtable_base_id =
       st_static.active_airtable_base_id) :=
  ⟨by decide, (C10_set_data_source_error_paths env_no_creds st_static).1 (by decide)⟩
